import Mathlib

/- Verification of the shader-editor core: uniform registry parsing and
merging, the shader compile lifecycle, the reload controller, and the
deterministic export pipeline.  Definitions are shallow embeddings of the
Rust sources:
  src/app/data.rs      (uniform data model)
  src/app.rs           (parse_uniforms, merge_uniforms, try_reload_shader,
                        custom_painting, is_ffmpeg_available)
  src/render_engine.rs (ShaderRenderer::new, GPU object lifecycle)
  src/app/file_io.rs   (render_frame_to_buffer, render_two_pass_to_buffer,
                        export_video)
f32 values that the claims quantify over (times, resolutions, uniform
defaults) are modelled as exact rationals; u32 arithmetic is modelled as Nat
with an explicit mod 2^32 where overflow is possible. -/

namespace ShaderEditor

/- ===== Data model: src/app/data.rs ===== -/

inductive UniformType
  | Float
  | Vec2
  | Vec3
  | Vec4
  | Sampler2D
  deriving DecidableEq, Repr

structure TextureHandle where
  path : String
  texture_id : Option Nat
  width : Nat
  height : Nat
  deriving DecidableEq, Repr

inductive UniformValue
  | Float : ℚ → UniformValue
  | Vec2 : ℚ × ℚ → UniformValue
  | Vec3 : ℚ × ℚ × ℚ → UniformValue
  | Vec4 : ℚ × ℚ × ℚ × ℚ → UniformValue
  | Sampler2D : Option TextureHandle → UniformValue
  deriving DecidableEq, Repr

structure UniformInfo where
  uniform_type : UniformType
  value : UniformValue
  deriving DecidableEq, Repr

/-- UniformValue::default_for_type (src/app/data.rs lines 36-44). -/
def UniformValue.default_for_type : UniformType → UniformValue
  | UniformType.Float => UniformValue.Float 1
  | UniformType.Vec2 => UniformValue.Vec2 (1/2, 1/2)
  | UniformType.Vec3 => UniformValue.Vec3 (1/2, 1/2, 1/2)
  | UniformType.Vec4 => UniformValue.Vec4 (1, 1, 1, 1)
  | UniformType.Sampler2D => UniformValue.Sampler2D none

/-- The variant tag carried by a UniformValue (which enum arm it is).
Used to state the variant-matches-declared-type invariant. -/
def UniformValue.variant : UniformValue → UniformType
  | UniformValue.Float _ => UniformType.Float
  | UniformValue.Vec2 _ => UniformType.Vec2
  | UniformValue.Vec3 _ => UniformType.Vec3
  | UniformValue.Vec4 _ => UniformType.Vec4
  | UniformValue.Sampler2D _ => UniformType.Sampler2D

/- A uniform registry (HashMap<String, UniformInfo>) is modelled
extensionally as an association list with unique keys; `registryGet` is
HashMap::get (first matching key). -/

abbrev Registry := List (String × UniformInfo)

/-- HashMap::get on the association-list model. -/
def registryGet : Registry → String → Option UniformInfo
  | [], _ => none
  | p :: rest, name => if p.1 = name then some p.2 else registryGet rest name

/-- HashMap::insert on the association-list model: replaces any existing
binding of the key. -/
def registryInsert (m : Registry) (name : String) (info : UniformInfo) : Registry :=
  (name, info) :: m.eraseP (fun p => p.1 = name)

/-- The `match type_str` dispatch in parse_uniforms (src/app.rs lines
502-509); `none` is the `_ => continue` arm for unrecognized types. -/
def typeFromStr (s : String) : Option UniformType :=
  if s = "float" then some UniformType.Float
  else if s = "vec2" then some UniformType.Vec2
  else if s = "vec3" then some UniformType.Vec3
  else if s = "vec4" then some UniformType.Vec4
  else if s = "sampler2D" then some UniformType.Sampler2D
  else none

/-- parse_uniforms (src/app.rs lines 489-523).  The regex
`uniform\s+(float|vec2|vec3|vec4|sampler2D)\s+([a-zA-Z_][a-zA-Z0-9_]*)\s*;`
is abstracted as the list of its capture pairs (type string, name), in match
order; the body is the loop over `re.captures_iter`, inserting the default
value for each recognized type (last occurrence of a name wins). -/
def parse_uniforms (captures : List (String × String)) : Registry :=
  captures.foldl
    (fun uniforms cap =>
      match typeFromStr cap.1 with
      | none => uniforms
      | some t =>
          registryInsert uniforms cap.2
            { uniform_type := t, value := UniformValue.default_for_type t })
    []

/-- ShaderApp::merge_uniforms (src/app.rs lines 284-298): for each entry of
the freshly parsed registry, keep the previous entry when the name exists in
the previous registry with the same declared type, otherwise take the fresh
entry. -/
def merge_uniforms (old_uniforms new_uniforms : Registry) : Registry :=
  new_uniforms.map
    (fun p =>
      match registryGet old_uniforms p.1 with
      | some old_info =>
          if old_info.uniform_type = p.2.uniform_type then (p.1, old_info) else p
      | none => p)

/- ===== GPU object lifecycle: src/render_engine.rs ===== -/

/- GL object allocation is modelled by a state carrying the lists of live
object ids per kind.  `bad_delete` records a release of an id that is not
live (a double-free). -/

structure GlState where
  next_id : Nat
  programs : List Nat
  shaders : List Nat
  vertex_arrays : List Nat
  bad_delete : Bool
  deriving DecidableEq, Repr

def GlState.init : GlState :=
  { next_id := 0, programs := [], shaders := [], vertex_arrays := [], bad_delete := false }

/-- Number of live GPU objects (the allocation counter of the claim). -/
def GlState.liveCount (st : GlState) : Nat :=
  st.programs.length + st.shaders.length + st.vertex_arrays.length

def allocProgram (st : GlState) : GlState × Nat :=
  ({ st with next_id := st.next_id + 1, programs := st.next_id :: st.programs }, st.next_id)

def allocShader (st : GlState) : GlState × Nat :=
  ({ st with next_id := st.next_id + 1, shaders := st.next_id :: st.shaders }, st.next_id)

def allocVertexArray (st : GlState) : GlState × Nat :=
  ({ st with next_id := st.next_id + 1, vertex_arrays := st.next_id :: st.vertex_arrays }, st.next_id)

def deleteProgram (pid : Nat) (st : GlState) : GlState :=
  if pid ∈ st.programs then { st with programs := st.programs.erase pid }
  else { st with bad_delete := true }

def deleteShader (sid : Nat) (st : GlState) : GlState :=
  if sid ∈ st.shaders then { st with shaders := st.shaders.erase sid }
  else { st with bad_delete := true }

/-- Outcome schedule for the fallible GL calls made by one
ShaderRenderer::new run, per shader stage. -/
structure ShaderStageBehavior where
  create_ok : Bool
  compile_ok : Bool
  info_log : String
  deriving DecidableEq, Repr

structure GlBehavior where
  create_program_ok : Bool
  vertex_stage : ShaderStageBehavior
  fragment_stage : ShaderStageBehavior
  link_ok : Bool
  link_log : String
  create_vertex_array_ok : Bool
  deriving DecidableEq, Repr

/-- The `for (shader_type, shader_source) in shader_sources` loop of
ShaderRenderer::new (src/render_engine.rs lines 47-73).  On create_shader
failure the `?` operator returns the error with no cleanup; on compile
failure the failing shader, every previously attached shader, and the
program are released.  Returns the accumulated `shaders` vector on
success. -/
def compileStages (program : Nat) :
    List ShaderStageBehavior → GlState → List Nat → GlState × Except String (List Nat)
  | [], st, shaders => (st, Except.ok shaders)
  | stage :: rest, st, shaders =>
    if stage.create_ok then
      let alloc := allocShader st
      if stage.compile_ok then
        -- attach_shader; shaders.push(shader)
        compileStages program rest alloc.1 (shaders ++ [alloc.2])
      else
        -- delete the failing shader, detach and delete previous shaders,
        -- delete the program, return the driver info log
        let st2 := deleteShader alloc.2 alloc.1
        let st3 := shaders.foldl (fun s sh => deleteShader sh s) st2
        let st4 := deleteProgram program st3
        (st4, Except.error stage.info_log)
    else
      (st, Except.error "create_shader failed")

/-- ShaderRenderer::new (src/render_engine.rs lines 11-96).  Returns the
final GL state and either the (program, vertex_array) handle or the error
string, following the source's exit paths exactly: the `?` on
create_program, the stage loop, the link check with cleanup, the
detach/delete of shader objects after a successful link, and the `?` on
create_vertex_array. -/
def ShaderRenderer.new (b : GlBehavior) (st : GlState) : GlState × Except String (Nat × Nat) :=
  if b.create_program_ok then
    let ap := allocProgram st
    match compileStages ap.2 [b.vertex_stage, b.fragment_stage] ap.1 [] with
    | (st2, Except.error e) => (st2, Except.error e)
    | (st2, Except.ok shaders) =>
      if b.link_ok then
        -- detach and delete shader objects after successful link
        let st3 := shaders.foldl (fun s sh => deleteShader sh s) st2
        if b.create_vertex_array_ok then
          let av := allocVertexArray st3
          (av.1, Except.ok (ap.2, av.2))
        else
          (st3, Except.error "create_vertex_array failed")
      else
        let st3 := shaders.foldl (fun s sh => deleteShader sh s) st2
        let st4 := deleteProgram ap.2 st3
        (st4, Except.error b.link_log)
  else
    (st, Except.error "create_program failed")

/-- The behavior in which every GL call up to and including linking
succeeds and create_vertex_array fails. -/
def vertexArrayFailure : GlBehavior :=
  { create_program_ok := true
    vertex_stage := { create_ok := true, compile_ok := true, info_log := "" }
    fragment_stage := { create_ok := true, compile_ok := true, info_log := "" }
    link_ok := true
    link_log := ""
    create_vertex_array_ok := false }

/- ===== Application state and reload controller: src/app.rs ===== -/

/-- ExportProgress (src/app/data.rs lines 47-52). -/
structure ExportProgress where
  current_frame : Nat
  total_frames : Nat
  status : String
  deriving DecidableEq, Repr

/-- RELOAD_DEBOUNCE_MS (src/main.rs line 35), in milliseconds. -/
def RELOAD_DEBOUNCE_MS : Nat := 100

/-- The ShaderApp fields the verified core reads and writes.  Timestamps
are wall-clock milliseconds (Instant); the renderer handle is the id of
the currently installed ShaderRenderer. -/
structure ShaderAppState where
  renderer : Nat
  uniforms : Registry
  shader_error : Option String
  last_reload : Nat
  ffmpeg_available : Bool
  video_duration_frames : Nat
  video_fps : Nat
  export_progress : Option ExportProgress
  deriving DecidableEq, Repr

/-- External collaborators of try_reload_shader: the filesystem read (as a
function of the time of the read), the regex capture pairs of a source
text, and the outcome of ShaderRenderer::new on a source text. -/
structure ReloadEnv where
  readFile : Nat → Except String String
  captures : String → List (String × String)
  compileShader : String → Except String Nat

/-- ShaderApp::try_reload_shader (src/app.rs lines 209-244).  Returns the
new state and, when a recompile attempt occurred, the source text that was
compiled.  The debounce gate no-ops while less than RELOAD_DEBOUNCE_MS has
elapsed since last_reload; last_reload is updated only on a successful
reload (line 230). -/
def try_reload_shader (env : ReloadEnv) (now : Nat) (app : ShaderAppState) :
    ShaderAppState × Option String :=
  if now - app.last_reload < RELOAD_DEBOUNCE_MS then (app, none)
  else
    match env.readFile now with
    | Except.ok new_source =>
        let new_uniforms := parse_uniforms (env.captures new_source)
        match env.compileShader new_source with
        | Except.ok new_renderer =>
            -- destroy the old renderer, install the new one, merge uniforms,
            -- clear the error, stamp last_reload
            ({ app with
                renderer := new_renderer
                uniforms := merge_uniforms app.uniforms new_uniforms
                shader_error := none
                last_reload := now }, some new_source)
        | Except.error e =>
            ({ app with shader_error := some e }, some new_source)
    | Except.error e =>
        ({ app with shader_error := some ("Failed to read shader file: " ++ e) }, none)

/-- Reload environment in which the file always reads the same source and
that source never compiles. -/
def alwaysFailingCompileEnv : ReloadEnv :=
  { readFile := fun _ => Except.ok "srcA"
    captures := fun _ => []
    compileShader := fun _ => Except.error "compile diagnostic" }

/-- Reload environment in which the file always reads the same source and
compilation always succeeds. -/
def alwaysOkCompileEnv : ReloadEnv :=
  { readFile := fun _ => Except.ok "srcA"
    captures := fun _ => []
    compileShader := fun _ => Except.ok 7 }

/-- A concrete app state whose last reload happened at time 0. -/
def baseApp : ShaderAppState :=
  { renderer := 1
    uniforms := []
    shader_error := none
    last_reload := 0
    ffmpeg_available := true
    video_duration_frames := 10
    video_fps := 5
    export_progress := none }

/- ===== Draw calls fed to the shader: src/app.rs custom_painting vs
src/app/file_io.rs render_frame_to_buffer / render_two_pass_to_buffer ===== -/

inductive PassKind
  | main
  | post
  deriving DecidableEq, Repr

/-- One ShaderRenderer::paint invocation, recording the pass drawn and the
`time` and `size` arguments it receives — exactly the values bound to the
u_time and u_resolution built-ins (src/render_engine.rs lines 116-121). -/
structure DrawCall where
  pass : PassKind
  time : ℚ
  resolution : ℚ × ℚ
  deriving DecidableEq, Repr

/-- The sequence of paint calls issued by ShaderApp::custom_painting
(src/app.rs lines 373-462) for one frame.  `rect_size` is the egui rect
size in logical points; `width`/`height` are the physical pixel sizes
`(size.x * pixels_per_point) as u32` (the f32→u32 cast truncates).  In the
two-pass branch both paints receive `physical_size`; in the single-pass
branch the paint receives `rect.size()` — the logical size. -/
def custom_painting_draws (pixels_per_point : ℚ) (rect_size : ℚ × ℚ) (time : ℚ)
    (use_post_process : Bool) : List DrawCall :=
  let width : Nat := ⌊rect_size.1 * pixels_per_point⌋.toNat
  let height : Nat := ⌊rect_size.2 * pixels_per_point⌋.toNat
  if use_post_process then
    let physical_size : ℚ × ℚ := ((width : ℚ), (height : ℚ))
    [ { pass := PassKind.main, time := time, resolution := physical_size },
      { pass := PassKind.post, time := time, resolution := physical_size } ]
  else
    [ { pass := PassKind.main, time := time, resolution := rect_size } ]

/-- The paint call issued by ShaderApp::render_frame_to_buffer
(src/app/file_io.rs line 180-181): `size = Vec2::new(width as f32,
height as f32)` at the requested export resolution. -/
def render_frame_to_buffer_draws (time : ℚ) (width height : Nat) : List DrawCall :=
  [ { pass := PassKind.main, time := time, resolution := ((width : ℚ), (height : ℚ)) } ]

/-- The two paint calls issued by ShaderApp::render_two_pass_to_buffer
(src/app/file_io.rs lines 246-247 and 298-299): both passes receive the
same `size` at the requested export resolution and the same time. -/
def render_two_pass_to_buffer_draws (time : ℚ) (width height : Nat) : List DrawCall :=
  [ { pass := PassKind.main, time := time, resolution := ((width : ℚ), (height : ℚ)) },
    { pass := PassKind.post, time := time, resolution := ((width : ℚ), (height : ℚ)) } ]

/- ===== Video export: src/app/file_io.rs export_video ===== -/

/-- is_ffmpeg_available (src/app.rs lines 480-486):
`Command::new("ffmpeg").arg("-version").output().map(|o|
o.status.success()).unwrap_or(false)`.  `version_query` is `none` when
running the probe fails outright, `some s` when it runs with success
status `s`. -/
def is_ffmpeg_available (version_query : Option Bool) : Bool :=
  (version_query.map (fun status_success => status_success)).getD false

/-- Externally visible actions of one export_video run. -/
inductive ExportEffect
  | spawn_ffmpeg
  | render_frame : Nat → ℚ → ExportEffect
  | write_frame : Nat → ExportEffect
  | save_png_sequence
  deriving DecidableEq, Repr

/-- External collaborators of export_video: the save dialog, the ffmpeg
spawn, per-frame render and pipe-write outcomes, and the result of waiting
on the encoder process. -/
structure VideoEnv where
  save_dialog : Option String
  spawn_ok : Bool
  spawn_err : String
  render_ok : Nat → Bool
  write_ok : Nat → Bool
  wait_result : Except String Bool

/-- The `for frame in 0..total_frames` loop of export_video
(src/app/file_io.rs lines 402-431), over the list of remaining frame
indices.  Each frame is rendered at logical time `frame / fps` (the f32
quotient modelled exactly); a failed render or a failed pipe write aborts
immediately.  Returns the effect trace and whether the loop completed. -/
def export_frames (env : VideoEnv) (fps : Nat) : List Nat → List ExportEffect × Bool
  | [] => ([], true)
  | frame :: rest =>
    let time : ℚ := (frame : ℚ) / (fps : ℚ)
    if env.render_ok frame then
      if env.write_ok frame then
        let r := export_frames env fps rest
        (ExportEffect.render_frame frame time :: ExportEffect.write_frame frame :: r.1, r.2)
      else ([ExportEffect.render_frame frame time], false)
    else ([ExportEffect.render_frame frame time], false)

/-- ShaderApp::export_video (src/app/file_io.rs lines 330-467): file
dialog, ffmpeg availability gate, ffmpeg spawn, frame loop, and the final
wait status.  Returns the new app state and the effect trace.  The aborted
paths clear export_progress (lines 423, 428); the deferred 3-second
progress clear after completion is outside the model. -/
def export_video (env : VideoEnv) (app : ShaderAppState) :
    ShaderAppState × List ExportEffect :=
  let total_frames := app.video_duration_frames
  match env.save_dialog with
  | none => (app, [])
  | some _ =>
    if app.ffmpeg_available then
      if env.spawn_ok then
        let r := export_frames env app.video_fps (List.range total_frames)
        if r.2 then
          let status :=
            match env.wait_result with
            | Except.ok true => "Export complete!"
            | Except.ok false => "FFmpeg encoding failed!"
            | Except.error e => "FFmpeg error: " ++ e
          let done : ExportProgress :=
            { current_frame := total_frames, total_frames := total_frames, status := status }
          ({ app with export_progress := some done }, ExportEffect.spawn_ffmpeg :: r.1)
        else
          ({ app with export_progress := none }, ExportEffect.spawn_ffmpeg :: r.1)
      else
        let failed : ExportProgress :=
          { current_frame := 0, total_frames := total_frames,
            status := "Failed to start FFmpeg: " ++ env.spawn_err }
        ({ app with export_progress := some failed }, [])
    else
      let unavailable : ExportProgress :=
        { current_frame := 0, total_frames := total_frames,
          status := "FFmpeg not available!" }
      ({ app with export_progress := some unavailable }, [])

/-- A video environment in which everything external succeeds. -/
def allOkVideoEnv : VideoEnv :=
  { save_dialog := some "shader_export.mp4"
    spawn_ok := true
    spawn_err := ""
    render_ok := fun _ => true
    write_ok := fun _ => true
    wait_result := Except.ok true }

/- ===== Export pixel pipeline: src/app/file_io.rs ===== -/

/-- Length of `vec![0u8; (width * height * 4) as usize]`
(src/app/file_io.rs line 183): the multiplication is u32 arithmetic, hence
the explicit mod 2^32 (no overflow occurs for any UI-reachable resolution,
which is clamped to at most 8192 per axis). -/
def frame_buffer_len (width height : Nat) : Nat :=
  (width * height * 4) % 2 ^ 32

/-- The slice `&pixels[(y * width * 4)..((y + 1) * width * 4)]` — row y of
a tightly packed RGBA buffer of row length `width * 4` bytes. -/
def row_slice (width : Nat) (pixels : List Nat) (y : Nat) : List Nat :=
  (pixels.drop (y * (width * 4))).take (width * 4)

/-- `dst_row.copy_from_slice(src_row)`: overwrite `row.length` bytes of
`dst` starting at `start`. -/
def write_row (dst : List Nat) (start : Nat) (row : List Nat) : List Nat :=
  dst.take start ++ row ++ dst.drop (start + row.length)

/-- One iteration of the flip loop (src/app/file_io.rs lines 196-201):
copy source row y to destination row `height - 1 - y`. -/
def flip_step (width height : Nat) (pixels flipped : List Nat) (y : Nat) : List Nat :=
  write_row flipped ((height - 1 - y) * (width * 4)) (row_slice width pixels y)

/-- The flip loop run for source rows `0..k` starting from
`vec![0u8; pixels.len()]`. -/
def flip_fold (width height : Nat) (pixels : List Nat) (k : Nat) : List Nat :=
  (List.range k).foldl (flip_step width height pixels) (List.replicate pixels.length 0)

/-- The vertical flip applied before returning an export buffer
(src/app/file_io.rs lines 194-201 and 317-324): allocate a zeroed buffer of
the same length and copy each source row y to destination row
`height - 1 - y`. -/
def flip_vertically (width height : Nat) (pixels : List Nat) : List Nat :=
  flip_fold width height pixels height

/-- GL outcomes and read-back for one render_frame_to_buffer run.
`read_pixel time width height i` is byte i of the glow::read_pixels
read-back (bottom-left-origin row order). -/
structure PixelEnv where
  create_framebuffer_ok : Bool
  create_texture_ok : Bool
  framebuffer_complete : Bool
  read_pixel : ℚ → Nat → Nat → Nat → Nat

/-- The buffer filled by `gl.read_pixels` into
`vec![0u8; (width * height * 4) as usize]` (src/app/file_io.rs lines
183-188). -/
def read_back (env : PixelEnv) (time : ℚ) (width height : Nat) : List Nat :=
  (List.range (frame_buffer_len width height)).map (env.read_pixel time width height)

/-- ShaderApp::render_frame_to_buffer (src/app/file_io.rs lines 146-205):
create framebuffer and texture (`?` on failure), bail out on an incomplete
framebuffer, draw, read back, release the GL objects, flip vertically and
return the flipped bytes. -/
def render_frame_to_buffer (env : PixelEnv) (time : ℚ) (width height : Nat) :
    Option (List Nat) :=
  if env.create_framebuffer_ok then
    if env.create_texture_ok then
      if env.framebuffer_complete then
        let pixels := read_back env time width height
        some (flip_vertically width height pixels)
      else none
    else none
  else none

/-- GL outcomes and final read-back for one render_two_pass_to_buffer
run.  `read_pixel` reads from the pass-2 framebuffer, after the
post-process draw consumed the pass-1 texture. -/
structure TwoPassPixelEnv where
  pass1_framebuffer_ok : Bool
  pass1_texture_ok : Bool
  pass1_complete : Bool
  pass2_framebuffer_ok : Bool
  pass2_texture_ok : Bool
  pass2_complete : Bool
  read_pixel : ℚ → Nat → Nat → Nat → Nat

def read_back_two_pass (env : TwoPassPixelEnv) (time : ℚ) (width height : Nat) : List Nat :=
  (List.range (frame_buffer_len width height)).map (env.read_pixel time width height)

/-- ShaderApp::render_two_pass_to_buffer (src/app/file_io.rs lines
208-328): pass-1 framebuffer/texture creation and completeness check,
main-pass draw, pass-2 framebuffer/texture creation and completeness
check, post-process draw with the injected u_mainPass texture, read back
from the final framebuffer, cleanup, flip vertically and return. -/
def render_two_pass_to_buffer (env : TwoPassPixelEnv) (time : ℚ) (width height : Nat) :
    Option (List Nat) :=
  if env.pass1_framebuffer_ok then
    if env.pass1_texture_ok then
      if env.pass1_complete then
        if env.pass2_framebuffer_ok then
          if env.pass2_texture_ok then
            if env.pass2_complete then
              let pixels := read_back_two_pass env time width height
              some (flip_vertically width height pixels)
            else none
          else none
        else none
      else none
    else none
  else none

/-- A pixel environment in which GL always succeeds and byte i of the
read-back is i mod 256. -/
def okPixelEnv : PixelEnv :=
  { create_framebuffer_ok := true
    create_texture_ok := true
    framebuffer_complete := true
    read_pixel := fun _ _ _ i => i % 256 }

/-- A two-pass pixel environment in which GL always succeeds and byte i of
the read-back is i mod 256. -/
def okTwoPassPixelEnv : TwoPassPixelEnv :=
  { pass1_framebuffer_ok := true
    pass1_texture_ok := true
    pass1_complete := true
    pass2_framebuffer_ok := true
    pass2_texture_ok := true
    pass2_complete := true
    read_pixel := fun _ _ _ i => i % 256 }

/- ===== Concrete instances used by witnesses ===== -/

/-- A previous registry holding a user-edited scalar. -/
def demoPrevious : Registry :=
  [("u_speed", { uniform_type := UniformType.Float, value := UniformValue.Float 3 })]

/-- A freshly parsed registry: u_speed re-declared with the same type (at
its parse-time default), u_color newly declared. -/
def demoFresh : Registry :=
  [("u_speed", { uniform_type := UniformType.Float, value := UniformValue.Float 1 }),
   ("u_color", { uniform_type := UniformType.Vec3,
                 value := UniformValue.Vec3 (1/2, 1/2, 1/2) })]

/-- baseApp with the ffmpeg probe having failed. -/
def unavailApp : ShaderAppState :=
  { baseApp with ffmpeg_available := false }

/- ===== Theorems ===== -/

lemma registryGet_mem {m : Registry} {n : String} {i : UniformInfo}
    (h : registryGet m n = some i) : (n, i) ∈ m := by
  induction m with
  | nil => simp [registryGet] at h
  | cons p rest ih =>
      by_cases hn : p.1 = n
      · simp [registryGet, hn] at h
        subst h
        exact hn ▸ List.mem_cons_self p rest
      · simp [registryGet, hn] at h
        exact List.mem_cons_of_mem p (ih h)

/-- C3: merge(P, F) has exactly the names of F, and for each name n of F
its value is P[n].value when n is in P with the same declared type, and
the default for F[n]'s declared type otherwise (F being freshly parsed,
its entries carry the per-type default values). -/
theorem merge_uniforms_spec (P F : Registry)
    (hF : ∀ p ∈ F, p.2.value = UniformValue.default_for_type p.2.uniform_type) :
    (merge_uniforms P F).map Prod.fst = F.map Prod.fst ∧
    ∀ n fi, registryGet F n = some fi →
      ∃ mi, registryGet (merge_uniforms P F) n = some mi ∧
        mi.uniform_type = fi.uniform_type ∧
        mi.value =
          (match registryGet P n with
           | some oi =>
             if oi.uniform_type = fi.uniform_type then oi.value
             else UniformValue.default_for_type fi.uniform_type
           | none => UniformValue.default_for_type fi.uniform_type) := by
  constructor
  · clear hF
    induction F with
    | nil => rfl
    | cons p rest ih =>
        simp only [merge_uniforms, List.map_cons, List.map_map] at *
        rw [ih]
        congr 1
        rcases hP : registryGet P p.1 with _ | oi
        · rfl
        · by_cases ht : oi.uniform_type = p.2.uniform_type <;> simp [hP, ht]
  · induction F with
    | nil => intro n fi h; simp [registryGet] at h
    | cons p rest ih =>
        intro n fi h
        by_cases hn : p.1 = n
        · subst hn
          have hfi : p.2 = fi := by simpa [registryGet] using h
          subst hfi
          have hval : p.2.value = UniformValue.default_for_type p.2.uniform_type :=
            hF p (List.mem_cons_self p rest)
          rcases hP : registryGet P p.1 with _ | oi
          · exact ⟨p.2, by simp [merge_uniforms, registryGet, hP], rfl,
              by simp [hP, hval]⟩
          · by_cases ht : oi.uniform_type = p.2.uniform_type
            · exact ⟨oi, by simp [merge_uniforms, registryGet, hP, ht], ht,
                by simp [hP, ht]⟩
            · exact ⟨p.2, by simp [merge_uniforms, registryGet, hP, ht], rfl,
                by simp [hP, ht, hval]⟩
        · have hrest : registryGet rest n = some fi := by
            simpa [registryGet, hn] using h
          rcases ih (fun q hq => hF q (List.mem_cons_of_mem p hq)) n fi hrest with
            ⟨mi, hmi, hty, hv⟩
          refine ⟨mi, ?_, hty, hv⟩
          rcases hP : registryGet P p.1 with _ | oi
          · simpa [merge_uniforms, registryGet, hP, hn] using hmi
          · by_cases ht : oi.uniform_type = p.2.uniform_type <;>
              simpa [merge_uniforms, registryGet, hP, ht, hn] using hmi

/-- C3 witness: the merged demo registries have exactly the fresh names. -/
theorem merge_uniforms_spec_witness :
    (merge_uniforms demoPrevious demoFresh).map Prod.fst = demoFresh.map Prod.fst :=
  (merge_uniforms_spec demoPrevious demoFresh
    (by
      intro p hp
      simp only [demoFresh, List.mem_cons, List.not_mem_nil, or_false] at hp
      rcases hp with h | h <;> (subst h; rfl))).1

lemma default_for_type_variant (t : UniformType) :
    (UniformValue.default_for_type t).variant = t := by
  cases t <;> rfl

lemma mem_registryInsert {m : Registry} {name : String} {info : UniformInfo}
    {p : String × UniformInfo} (h : p ∈ registryInsert m name info) :
    p = (name, info) ∨ p ∈ m := by
  rcases List.mem_cons.mp h with h | h
  · exact Or.inl h
  · exact Or.inr ((List.eraseP_sublist m).subset h)

lemma parse_uniforms_foldl_inv (captures : List (String × String)) :
    ∀ acc : Registry,
      (∀ p ∈ acc, p.2.value = UniformValue.default_for_type p.2.uniform_type) →
      ∀ p ∈ captures.foldl
          (fun uniforms cap =>
            match typeFromStr cap.1 with
            | none => uniforms
            | some t =>
                registryInsert uniforms cap.2
                  { uniform_type := t, value := UniformValue.default_for_type t })
          acc,
        p.2.value = UniformValue.default_for_type p.2.uniform_type := by
  induction captures with
  | nil => intro acc hacc p hp; exact hacc p hp
  | cons cap rest ih =>
      intro acc hacc p hp
      rw [List.foldl_cons] at hp
      rcases hm : typeFromStr cap.1 with _ | t
      · rw [hm] at hp
        exact ih acc hacc p hp
      · rw [hm] at hp
        refine ih _ ?_ p hp
        intro q hq
        rcases mem_registryInsert hq with h | h
        · subst h; rfl
        · exact hacc q h

/-- C9: value variants always match declared types in registries produced
by parse or merge, and freshly constructed descriptors carry the fixed
per-type defaults (Scalar=1.0, Vec2=(0.5,0.5), Vec3=(0.5,0.5,0.5),
Vec4=(1,1,1,1), Texture2D=unbound). -/
theorem uniform_descriptor_invariant :
    (∀ t, (UniformValue.default_for_type t).variant = t) ∧
    (UniformValue.default_for_type UniformType.Float = UniformValue.Float 1 ∧
     UniformValue.default_for_type UniformType.Vec2 = UniformValue.Vec2 (1/2, 1/2) ∧
     UniformValue.default_for_type UniformType.Vec3 = UniformValue.Vec3 (1/2, 1/2, 1/2) ∧
     UniformValue.default_for_type UniformType.Vec4 = UniformValue.Vec4 (1, 1, 1, 1) ∧
     UniformValue.default_for_type UniformType.Sampler2D = UniformValue.Sampler2D none) ∧
    (∀ captures, ∀ p ∈ parse_uniforms captures,
        p.2.value = UniformValue.default_for_type p.2.uniform_type ∧
        p.2.value.variant = p.2.uniform_type) ∧
    (∀ old_uniforms new_uniforms : Registry,
        (∀ p ∈ old_uniforms, p.2.value.variant = p.2.uniform_type) →
        (∀ p ∈ new_uniforms, p.2.value.variant = p.2.uniform_type) →
        ∀ p ∈ merge_uniforms old_uniforms new_uniforms,
          p.2.value.variant = p.2.uniform_type) := by
  refine ⟨default_for_type_variant, ⟨rfl, rfl, rfl, rfl, rfl⟩, ?_, ?_⟩
  · intro captures p hp
    have hd := parse_uniforms_foldl_inv captures []
      (by intro q hq; simp at hq) p hp
    exact ⟨hd, by rw [hd]; exact default_for_type_variant _⟩
  · intro old_u new_u hold hnew p hp
    rcases List.mem_map.mp hp with ⟨q, hq, hfq⟩
    rcases hP : registryGet old_u q.1 with _ | oi
    · simp only [hP] at hfq
      exact hfq ▸ hnew q hq
    · by_cases ht : oi.uniform_type = q.2.uniform_type
      · simp only [hP, if_pos ht] at hfq
        subst hfq
        exact hold (q.1, oi) (registryGet_mem hP)
      · simp only [hP, if_neg ht] at hfq
        exact hfq ▸ hnew q hq

/-- C9 witness: the scalar kept across the demo merge has a Float value
variant matching its Float declared type. -/
theorem uniform_descriptor_invariant_witness :
    (UniformValue.Float 3).variant = UniformType.Float :=
  (uniform_descriptor_invariant.2.2.2 demoPrevious demoFresh
    (by
      intro p hp
      simp only [demoPrevious, List.mem_cons, List.not_mem_nil, or_false] at hp
      subst hp; rfl)
    (by
      intro p hp
      simp only [demoFresh, List.mem_cons, List.not_mem_nil, or_false] at hp
      rcases hp with h | h <;> (subst h; rfl)))
    ("u_speed", { uniform_type := UniformType.Float, value := UniformValue.Float 3 })
    (by
      have hmerge : merge_uniforms demoPrevious demoFresh =
          [("u_speed", { uniform_type := UniformType.Float, value := UniformValue.Float 3 }),
           ("u_color", { uniform_type := UniformType.Vec3,
                         value := UniformValue.Vec3 (1/2, 1/2, 1/2) })] := rfl
      rw [hmerge]
      exact List.mem_cons_self _ _)

/-- C4: when the debounce gate passes, the file read succeeds and
compilation fails, try_reload_shader leaves the current renderer handle,
the uniform registry and last_reload untouched and sets shader_error to
the compiler diagnostic — in particular shader_error does not become
none. -/
theorem try_reload_shader_compile_failure (env : ReloadEnv) (now : Nat)
    (app : ShaderAppState) (src diag : String)
    (hdeb : RELOAD_DEBOUNCE_MS ≤ now - app.last_reload)
    (hread : env.readFile now = Except.ok src)
    (hcomp : env.compileShader src = Except.error diag) :
    ((try_reload_shader env now app).1.renderer = app.renderer) ∧
    ((try_reload_shader env now app).1.uniforms = app.uniforms) ∧
    ((try_reload_shader env now app).1.shader_error = some diag) ∧
    ((try_reload_shader env now app).1.shader_error ≠ none) ∧
    ((try_reload_shader env now app).1.last_reload = app.last_reload) := by
  have h1 : ¬ (now - app.last_reload < RELOAD_DEBOUNCE_MS) := not_lt.mpr hdeb
  simp [try_reload_shader, h1, hread, hcomp]

/-- C4 witness: a concrete failing compile at time 100 over baseApp. -/
theorem try_reload_shader_compile_failure_witness :
    ((try_reload_shader alwaysFailingCompileEnv 100 baseApp).1.renderer = baseApp.renderer) ∧
    ((try_reload_shader alwaysFailingCompileEnv 100 baseApp).1.uniforms = baseApp.uniforms) ∧
    ((try_reload_shader alwaysFailingCompileEnv 100 baseApp).1.shader_error =
      some "compile diagnostic") ∧
    ((try_reload_shader alwaysFailingCompileEnv 100 baseApp).1.shader_error ≠ none) ∧
    ((try_reload_shader alwaysFailingCompileEnv 100 baseApp).1.last_reload =
      baseApp.last_reload) :=
  try_reload_shader_compile_failure alwaysFailingCompileEnv 100 baseApp
    "srcA" "compile diagnostic" (by decide) rfl rfl

/-- C5 counterexample: two reload-trigger signals processed 50 ms apart
(at times 100 and 150, both past the startup debounce window) each cause a
recompile attempt when the first attempt's compile fails, because
last_reload is only stamped on a successful reload — refuting "exactly one
recompile attempt ... the second signal's attempt is a no-op" as an
unconditional statement. -/
theorem debounce_counterexample :
    (150 - 100 < RELOAD_DEBOUNCE_MS) ∧
    ((try_reload_shader alwaysFailingCompileEnv 100 baseApp).2 = some "srcA") ∧
    ((try_reload_shader alwaysFailingCompileEnv 150
        (try_reload_shader alwaysFailingCompileEnv 100 baseApp).1).2 = some "srcA") :=
  ⟨by decide, rfl, rfl⟩

/-- C5 amended: two reload-trigger signals processed less than the
debounce interval (100 ms) apart cause exactly one recompile attempt —
compiling the file contents read when the first signal was processed —
and the second signal's attempt is a no-op, provided the first signal
passes the debounce gate and its recompile succeeds. -/
theorem debounce_amended (env : ReloadEnv) (app : ShaderAppState) (t1 t2 : Nat)
    (src : String) (handle : Nat)
    (hdeb : RELOAD_DEBOUNCE_MS ≤ t1 - app.last_reload)
    (hlt : t2 - t1 < RELOAD_DEBOUNCE_MS)
    (hread : env.readFile t1 = Except.ok src)
    (hcomp : env.compileShader src = Except.ok handle) :
    ((try_reload_shader env t1 app).2 = some src) ∧
    (try_reload_shader env t2 (try_reload_shader env t1 app).1 =
      ((try_reload_shader env t1 app).1, none)) := by
  have h1 : ¬ (t1 - app.last_reload < RELOAD_DEBOUNCE_MS) := not_lt.mpr hdeb
  have hs : (try_reload_shader env t1 app).1.last_reload = t1 := by
    simp [try_reload_shader, h1, hread, hcomp]
  constructor
  · simp [try_reload_shader, h1, hread, hcomp]
  · have hcond : t2 - (try_reload_shader env t1 app).1.last_reload < RELOAD_DEBOUNCE_MS := by
      rw [hs]; exact hlt
    conv_lhs => rw [try_reload_shader]
    rw [if_pos hcond]

/-- C5 amended witness: a successful first reload at time 100 makes the
signal at time 150 a no-op. -/
theorem debounce_amended_witness :
    ((try_reload_shader alwaysOkCompileEnv 100 baseApp).2 = some "srcA") ∧
    (try_reload_shader alwaysOkCompileEnv 150 (try_reload_shader alwaysOkCompileEnv 100 baseApp).1 =
      ((try_reload_shader alwaysOkCompileEnv 100 baseApp).1, none)) :=
  debounce_amended alwaysOkCompileEnv baseApp 100 150 "srcA" 7
    (by decide) (by decide) rfl rfl

/-- C2: evaluating ShaderRenderer::new at the schedule where every GL call
up to and including linking succeeds and create_vertex_array fails shows
the error path returning with the linked program still allocated — the
allocation counter does not return to its pre-call baseline, contradicting
the claim (and the code's own comment that error handling cleans up on
failure). -/
theorem shader_renderer_new_vertex_array_leak :
    ((ShaderRenderer.new vertexArrayFailure GlState.init).2 =
      Except.error "create_vertex_array failed") ∧
    (GlState.liveCount GlState.init = 0) ∧
    (GlState.liveCount (ShaderRenderer.new vertexArrayFailure GlState.init).1 = 1) ∧
    ((ShaderRenderer.new vertexArrayFailure GlState.init).1.programs = [0]) ∧
    ((ShaderRenderer.new vertexArrayFailure GlState.init).1.bad_delete = false) := by
  refine ⟨rfl, rfl, rfl, rfl, rfl⟩

/-- C1 counterexample: at pixels_per_point = 2, an interactive single-pass
frame in a 100×100-point rect covers 200×200 physical pixels, yet its
paint call receives u_resolution = (100, 100) (rect.size(), logical
points), while the deterministic export of the same frame at 200×200
receives u_resolution = (200, 200) — the two paths do not feed the same
resolution values to the shader draw. -/
theorem interactive_export_draw_counterexample :
    ((custom_painting_draws 2 (100, 100) 5 false).map DrawCall.resolution =
      [((100 : ℚ), (100 : ℚ))]) ∧
    ((render_frame_to_buffer_draws 5 200 200).map DrawCall.resolution =
      [((200 : ℚ), (200 : ℚ))]) ∧
    (custom_painting_draws 2 (100, 100) 5 false ≠ render_frame_to_buffer_draws 5 200 200) := by
  refine ⟨rfl, by norm_num [render_frame_to_buffer_draws], ?_⟩
  intro h
  have := congrArg (fun l => (l.map DrawCall.resolution)) h
  simp [custom_painting_draws, render_frame_to_buffer_draws] at this

/-- C1 amended: interactive two-pass rendering and two-pass export feed
identical (pass, time, resolution) draw calls whenever the physical pixel
size of the interactive rect equals the export size; the single-pass
interactive path feeds rect.size() — the logical point size — so it
matches the export draw exactly when pixels_per_point = 1 and the rect
equals the export size. -/
theorem interactive_export_draws_amended (t : ℚ) (w h : Nat) (sx sy ppp : ℚ)
    (hw : (⌊sx * ppp⌋).toNat = w) (hh : (⌊sy * ppp⌋).toNat = h) :
    (custom_painting_draws ppp (sx, sy) t true = render_two_pass_to_buffer_draws t w h) ∧
    (ppp = 1 → sx = (w : ℚ) → sy = (h : ℚ) →
      custom_painting_draws ppp (sx, sy) t false = render_frame_to_buffer_draws t w h) := by
  constructor
  · simp [custom_painting_draws, render_two_pass_to_buffer_draws, hw, hh]
  · intro h1 h2 h3
    simp [custom_painting_draws, render_frame_to_buffer_draws, h2, h3]

/-- C1 amended witness: at pixels_per_point = 1 and rect 200×100 both the
two-pass and the single-pass draw-call sequences match the export ones. -/
theorem interactive_export_draws_amended_witness :
    (custom_painting_draws 1 (200, 100) 3 true = render_two_pass_to_buffer_draws 3 200 100) ∧
    ((1 : ℚ) = 1 → (200 : ℚ) = ((200 : Nat) : ℚ) → (100 : ℚ) = ((100 : Nat) : ℚ) →
      custom_painting_draws 1 (200, 100) 3 false = render_frame_to_buffer_draws 3 200 100) :=
  interactive_export_draws_amended 3 200 100 200 100 1
    (by norm_num; rfl) (by norm_num; rfl)

lemma export_frames_render_mem (env : VideoEnv) (fps : Nat) :
    ∀ (fs : List Nat) (i : Nat) (t : ℚ),
      ExportEffect.render_frame i t ∈ (export_frames env fps fs).1 →
      i ∈ fs ∧ t = (i : ℚ) / (fps : ℚ) := by
  intro fs
  induction fs with
  | nil => intro i t h; simp [export_frames] at h
  | cons f rest ih =>
      intro i t h
      cases hr : env.render_ok f with
      | false =>
          simp only [export_frames, hr, Bool.false_eq_true, if_false,
            List.mem_singleton] at h
          injection h with h1 h2
          exact ⟨by rw [h1]; exact List.mem_cons_self f rest, by rw [h1]; exact h2⟩
      | true =>
          cases hw : env.write_ok f with
          | false =>
              simp only [export_frames, hr, hw, Bool.false_eq_true, if_true, if_false,
                List.mem_singleton] at h
              injection h with h1 h2
              exact ⟨by rw [h1]; exact List.mem_cons_self f rest, by rw [h1]; exact h2⟩
          | true =>
              simp only [export_frames, hr, hw, if_true] at h
              rcases List.mem_cons.mp h with h | h
              · injection h with h1 h2
                exact ⟨by rw [h1]; exact List.mem_cons_self f rest, by rw [h1]; exact h2⟩
              · rcases List.mem_cons.mp h with h | h
                · exact ExportEffect.noConfusion h
                · rcases ih i t h with ⟨h1, h2⟩
                  exact ⟨List.mem_cons_of_mem f h1, h2⟩

lemma export_frames_render_complete (env : VideoEnv) (fps : Nat)
    (hr : ∀ j, env.render_ok j = true) (hw : ∀ j, env.write_ok j = true) :
    ∀ (fs : List Nat) (i : Nat), i ∈ fs →
      ExportEffect.render_frame i ((i : ℚ) / (fps : ℚ)) ∈ (export_frames env fps fs).1 := by
  intro fs
  induction fs with
  | nil => intro i hi; simp at hi
  | cons f rest ih =>
      intro i hi
      simp only [export_frames, hr f, hw f, if_true]
      rcases List.mem_cons.mp hi with h | h
      · subst h
        exact List.mem_cons_self _ _
      · exact List.mem_cons_of_mem _ (List.mem_cons_of_mem _ (ih i h))

lemma export_video_trace (env : VideoEnv) (app : ShaderAppState) (p : String)
    (hdialog : env.save_dialog = some p)
    (havail : app.ffmpeg_available = true)
    (hspawn : env.spawn_ok = true) :
    (export_video env app).2 =
      ExportEffect.spawn_ffmpeg ::
        (export_frames env app.video_fps (List.range app.video_duration_frames)).1 := by
  simp only [export_video, hdialog, havail, hspawn, if_true]
  split <;> rfl

/-- C6: during a video export every render of frame i happens at logical
time i / frame_rate exactly (frame indices and the frame rate divided as
rationals, independent of wall-clock speed), and when every frame renders
and writes successfully, every i in [0, frame_count) is rendered at that
time. -/
theorem export_video_frame_times (env : VideoEnv) (app : ShaderAppState) (p : String)
    (i : Nat) (t : ℚ)
    (hdialog : env.save_dialog = some p)
    (havail : app.ffmpeg_available = true)
    (hspawn : env.spawn_ok = true) :
    (ExportEffect.render_frame i t ∈ (export_video env app).2 →
      i < app.video_duration_frames ∧ t = (i : ℚ) / (app.video_fps : ℚ)) ∧
    ((∀ j, env.render_ok j = true) → (∀ j, env.write_ok j = true) →
      i < app.video_duration_frames →
      ExportEffect.render_frame i ((i : ℚ) / (app.video_fps : ℚ)) ∈ (export_video env app).2) := by
  have htrace := export_video_trace env app p hdialog havail hspawn
  constructor
  · intro hmem
    rw [htrace] at hmem
    rcases List.mem_cons.mp hmem with h | h
    · exact ExportEffect.noConfusion h
    · rcases export_frames_render_mem env app.video_fps _ i t h with ⟨h1, h2⟩
      exact ⟨List.mem_range.mp h1, h2⟩
  · intro hr hw hi
    rw [htrace]
    exact List.mem_cons_of_mem _
      (export_frames_render_complete env app.video_fps hr hw _ i (List.mem_range.mpr hi))

/-- C6 witness: in the all-success environment, frame 1 of the 10-frame,
5 fps export over baseApp is rendered at time 1/5 = 0.2. -/
theorem export_video_frame_times_witness :
    ExportEffect.render_frame 1 (((1 : Nat) : ℚ) / ((5 : Nat) : ℚ)) ∈
      (export_video allOkVideoEnv baseApp).2 :=
  (export_video_frame_times allOkVideoEnv baseApp "shader_export.mp4" 1
      (((1 : Nat) : ℚ) / ((5 : Nat) : ℚ)) rfl rfl rfl).2
    (fun _ => rfl) (fun _ => rfl) (by decide)

/-- C8: a video export started after a failed encoder-availability probe
(is_ffmpeg_available = false, stored in the app state at startup) renders
no frame, emits no fallback output, reports the explicit
"FFmpeg not available!" status, and leaves the renderer, uniforms and
error state untouched. -/
theorem export_video_encoder_unavailable (q : Option Bool) (env : VideoEnv)
    (app : ShaderAppState) (p : String) (i : Nat) (t : ℚ)
    (hq : is_ffmpeg_available q = false)
    (happ : app.ffmpeg_available = is_ffmpeg_available q)
    (hdialog : env.save_dialog = some p) :
    (ExportEffect.render_frame i t ∉ (export_video env app).2) ∧
    (ExportEffect.save_png_sequence ∉ (export_video env app).2) ∧
    ((export_video env app).1.export_progress =
      some { current_frame := 0, total_frames := app.video_duration_frames,
             status := "FFmpeg not available!" }) ∧
    ((export_video env app).1.renderer = app.renderer) ∧
    ((export_video env app).1.uniforms = app.uniforms) ∧
    ((export_video env app).1.shader_error = app.shader_error) := by
  have hav : app.ffmpeg_available = false := by rw [happ, hq]
  simp [export_video, hdialog, hav]

/-- C8 witness: with the probe returning none (the version query failed to
run), the export over unavailApp renders nothing and reports the encoder
as unavailable. -/
theorem export_video_encoder_unavailable_witness :
    (ExportEffect.render_frame 0 0 ∉ (export_video allOkVideoEnv unavailApp).2) ∧
    (ExportEffect.save_png_sequence ∉ (export_video allOkVideoEnv unavailApp).2) ∧
    ((export_video allOkVideoEnv unavailApp).1.export_progress =
      some { current_frame := 0, total_frames := unavailApp.video_duration_frames,
             status := "FFmpeg not available!" }) ∧
    ((export_video allOkVideoEnv unavailApp).1.renderer = unavailApp.renderer) ∧
    ((export_video allOkVideoEnv unavailApp).1.uniforms = unavailApp.uniforms) ∧
    ((export_video allOkVideoEnv unavailApp).1.shader_error = unavailApp.shader_error) :=
  export_video_encoder_unavailable none allOkVideoEnv unavailApp "shader_export.mp4"
    0 0 rfl rfl rfl

lemma length_write_row (dst row : List Nat) (start : Nat)
    (h : start + row.length ≤ dst.length) :
    (write_row dst start row).length = dst.length := by
  simp [write_row]
  omega

lemma getElem?_write_row (dst row : List Nat) (start i : Nat)
    (h : start + row.length ≤ dst.length) :
    (write_row dst start row)[i]? =
      if start ≤ i ∧ i < start + row.length then row[i - start]? else dst[i]? := by
  have hts : (dst.take start).length = start := by
    rw [List.length_take]; omega
  simp only [write_row, List.append_assoc]
  rcases Nat.lt_or_ge i start with hi | hi
  · rw [if_neg (by omega)]
    rw [List.getElem?_append_left (by rw [hts]; exact hi)]
    exact List.getElem?_take_of_lt hi
  · rcases Nat.lt_or_ge i (start + row.length) with hlt | hge
    · rw [if_pos ⟨hi, hlt⟩]
      rw [List.getElem?_append_right (by rw [hts]; exact hi), hts]
      exact List.getElem?_append_left (by omega)
    · rw [if_neg (by omega)]
      rw [List.getElem?_append_right (by rw [hts]; omega), hts]
      rw [List.getElem?_append_right (by omega)]
      rw [List.getElem?_drop]
      congr 1
      omega

lemma length_row_slice (w : Nat) (pixels : List Nat) (y : Nat) :
    (row_slice w pixels y).length = min (w * 4) (pixels.length - y * (w * 4)) := by
  simp [row_slice]

lemma getElem?_row_slice (w : Nat) (pixels : List Nat) (y j : Nat) :
    (row_slice w pixels y)[j]? =
      if j < w * 4 then pixels[y * (w * 4) + j]? else none := by
  by_cases hj : j < w * 4
  · rw [if_pos hj]
    simp only [row_slice]
    rw [List.getElem?_take_of_lt hj, List.getElem?_drop]
  · rw [if_neg hj]
    apply List.getElem?_eq_none
    rw [length_row_slice]
    omega

lemma row_slice_write_row_self (w : Nat) (dst row : List Nat) (d : Nat)
    (hrow : row.length = w * 4)
    (hb : d * (w * 4) + (w * 4) ≤ dst.length) :
    row_slice w (write_row dst (d * (w * 4)) row) d = row := by
  apply List.ext_getElem?
  intro j
  rw [getElem?_row_slice]
  by_cases hj : j < w * 4
  · rw [if_pos hj, getElem?_write_row _ _ _ _ (by omega)]
    rw [if_pos (by omega)]
    congr 1
    omega
  · rw [if_neg hj]
    exact (List.getElem?_eq_none (by omega)).symm

lemma row_slice_write_row_other (w : Nat) (dst row : List Nat) (d d' : Nat)
    (hrow : row.length = w * 4)
    (hb : d' * (w * 4) + (w * 4) ≤ dst.length)
    (hne : d ≠ d') :
    row_slice w (write_row dst (d' * (w * 4)) row) d = row_slice w dst d := by
  apply List.ext_getElem?
  intro j
  rw [getElem?_row_slice, getElem?_row_slice]
  by_cases hj : j < w * 4
  · rw [if_pos hj, if_pos hj]
    rw [getElem?_write_row _ _ _ _ (by omega)]
    have hc : ¬ (d' * (w * 4) ≤ d * (w * 4) + j ∧
        d * (w * 4) + j < d' * (w * 4) + row.length) := by
      intro hcon
      obtain ⟨h1, h2⟩ := hcon
      rw [hrow] at h2
      rcases Nat.lt_or_ge d d' with hdd | hdd
      · have hm : (d + 1) * (w * 4) ≤ d' * (w * 4) := Nat.mul_le_mul_right _ hdd
        rw [Nat.succ_mul] at hm
        omega
      · have hdd' : d' < d := Nat.lt_of_le_of_ne hdd (Ne.symm hne)
        have hm : (d' + 1) * (w * 4) ≤ d * (w * 4) := Nat.mul_le_mul_right _ hdd'
        rw [Nat.succ_mul] at hm
        omega
    rw [if_neg hc]
  · rw [if_neg hj, if_neg hj]

lemma flip_fold_succ (w hgt : Nat) (pixels : List Nat) (k : Nat) :
    flip_fold w hgt pixels (k + 1) =
      flip_step w hgt pixels (flip_fold w hgt pixels k) k := by
  simp only [flip_fold]
  rw [List.range_succ, List.foldl_append, List.foldl_cons, List.foldl_nil]

lemma length_flip_fold (w hgt : Nat) (pixels : List Nat)
    (hlen : pixels.length = w * hgt * 4) :
    ∀ k, k ≤ hgt → (flip_fold w hgt pixels k).length = pixels.length := by
  intro k
  induction k with
  | zero => intro _; simp [flip_fold]
  | succ k ih =>
      intro hk
      have hk' : k ≤ hgt := Nat.le_of_succ_le hk
      have hprev := ih hk'
      rw [flip_fold_succ]
      simp only [flip_step]
      rw [length_write_row]
      · exact hprev
      · rw [hprev, hlen, length_row_slice, hlen]
        have e1 : w * hgt * 4 = hgt * (w * 4) := by ring
        have e2 : ((hgt - 1 - k) + 1) * (w * 4) ≤ hgt * (w * 4) :=
          Nat.mul_le_mul_right _ (by omega)
        rw [Nat.succ_mul] at e2
        omega

lemma row_slice_flip_fold (w hgt : Nat) (pixels : List Nat)
    (hlen : pixels.length = w * hgt * 4) :
    ∀ k, k ≤ hgt → ∀ d, d < hgt →
      row_slice w (flip_fold w hgt pixels k) d =
        if hgt - k ≤ d then row_slice w pixels (hgt - 1 - d)
        else row_slice w (List.replicate pixels.length 0) d := by
  intro k
  induction k with
  | zero =>
      intro _ d hd
      rw [if_neg (by omega)]
      rfl
  | succ k ih =>
      intro hk d hd
      have hk' : k ≤ hgt := Nat.le_of_succ_le hk
      rw [flip_fold_succ]
      simp only [flip_step]
      have hprevlen : (flip_fold w hgt pixels k).length = pixels.length :=
        length_flip_fold w hgt pixels hlen k hk'
      have e1 : w * hgt * 4 = hgt * (w * 4) := by ring
      have hrowlen : (row_slice w pixels k).length = w * 4 := by
        rw [length_row_slice, hlen]
        have e2 : (k + 1) * (w * 4) ≤ hgt * (w * 4) := Nat.mul_le_mul_right _ hk
        rw [Nat.succ_mul] at e2
        omega
      have hb : (hgt - 1 - k) * (w * 4) + (w * 4) ≤ (flip_fold w hgt pixels k).length := by
        rw [hprevlen, hlen]
        have e2 : ((hgt - 1 - k) + 1) * (w * 4) ≤ hgt * (w * 4) :=
          Nat.mul_le_mul_right _ (by omega)
        rw [Nat.succ_mul] at e2
        omega
      by_cases hdk : d = hgt - 1 - k
      · subst hdk
        rw [row_slice_write_row_self w _ _ _ hrowlen hb]
        rw [if_pos (by omega)]
        congr 1
        omega
      · rw [row_slice_write_row_other w _ _ _ _ hrowlen hb hdk]
        rw [ih hk' d hd]
        by_cases hc : hgt - k ≤ d
        · rw [if_pos hc, if_pos (by omega)]
        · rw [if_neg hc, if_neg (by omega)]

lemma row_slice_flip_vertically (w hgt : Nat) (pixels : List Nat)
    (hlen : pixels.length = w * hgt * 4) (y : Nat) (hy : y < hgt) :
    row_slice w (flip_vertically w hgt pixels) y = row_slice w pixels (hgt - 1 - y) := by
  simp only [flip_vertically]
  rw [row_slice_flip_fold w hgt pixels hlen hgt le_rfl y hy, if_pos (by omega)]

lemma length_flip_vertically (w hgt : Nat) (pixels : List Nat)
    (hlen : pixels.length = w * hgt * 4) :
    (flip_vertically w hgt pixels).length = pixels.length := by
  simp only [flip_vertically]
  exact length_flip_fold w hgt pixels hlen hgt le_rfl

lemma render_frame_to_buffer_eq (env : PixelEnv) (t : ℚ) (w hgt : Nat)
    (buf : List Nat) (h : render_frame_to_buffer env t w hgt = some buf) :
    buf = flip_vertically w hgt (read_back env t w hgt) := by
  simp only [render_frame_to_buffer] at h
  split at h
  · split at h
    · split at h
      · exact (Option.some.inj h).symm
      · exact Option.noConfusion h
    · exact Option.noConfusion h
  · exact Option.noConfusion h

lemma render_two_pass_to_buffer_eq (env : TwoPassPixelEnv) (t : ℚ) (w hgt : Nat)
    (buf : List Nat) (h : render_two_pass_to_buffer env t w hgt = some buf) :
    buf = flip_vertically w hgt (read_back_two_pass env t w hgt) := by
  simp only [render_two_pass_to_buffer] at h
  split at h
  · split at h
    · split at h
      · split at h
        · split at h
          · split at h
            · exact (Option.some.inj h).symm
            · exact Option.noConfusion h
          · exact Option.noConfusion h
        · exact Option.noConfusion h
      · exact Option.noConfusion h
    · exact Option.noConfusion h
  · exact Option.noConfusion h

lemma length_read_back (env : PixelEnv) (t : ℚ) (w hgt : Nat) :
    (read_back env t w hgt).length = frame_buffer_len w hgt := by
  simp [read_back]

lemma length_read_back_two_pass (env : TwoPassPixelEnv) (t : ℚ) (w hgt : Nat) :
    (read_back_two_pass env t w hgt).length = frame_buffer_len w hgt := by
  simp [read_back_two_pass]

/-- C7: whenever a single-pass or two-pass export render returns a buffer,
that buffer is the GL read-back with the vertical row flip applied exactly
once: output row y is read-back row height-1-y (so output row 0 is the
read-back's last row). -/
theorem export_buffer_row_flip (env : PixelEnv) (env2 : TwoPassPixelEnv)
    (t : ℚ) (w hgt y : Nat) (buf buf2 : List Nat)
    (hov : w * hgt * 4 < 2 ^ 32)
    (hy : y < hgt)
    (h1 : render_frame_to_buffer env t w hgt = some buf)
    (h2 : render_two_pass_to_buffer env2 t w hgt = some buf2) :
    (row_slice w buf y = row_slice w (read_back env t w hgt) (hgt - 1 - y)) ∧
    (row_slice w buf2 y = row_slice w (read_back_two_pass env2 t w hgt) (hgt - 1 - y)) := by
  have hfb : frame_buffer_len w hgt = w * hgt * 4 := Nat.mod_eq_of_lt hov
  constructor
  · rw [render_frame_to_buffer_eq env t w hgt buf h1]
    exact row_slice_flip_vertically w hgt _ (by rw [length_read_back, hfb]) y hy
  · rw [render_two_pass_to_buffer_eq env2 t w hgt buf2 h2]
    exact row_slice_flip_vertically w hgt _ (by rw [length_read_back_two_pass, hfb]) y hy

/-- C7 witness: at 2×2 with the all-success GL environment, output row 0
of both export paths equals read-back row 1. -/
theorem export_buffer_row_flip_witness :
    (row_slice 2 (flip_vertically 2 2 (read_back okPixelEnv 0 2 2)) 0 =
      row_slice 2 (read_back okPixelEnv 0 2 2) (2 - 1 - 0)) ∧
    (row_slice 2 (flip_vertically 2 2 (read_back_two_pass okTwoPassPixelEnv 0 2 2)) 0 =
      row_slice 2 (read_back_two_pass okTwoPassPixelEnv 0 2 2) (2 - 1 - 0)) :=
  export_buffer_row_flip okPixelEnv okTwoPassPixelEnv 0 2 2 0
    (flip_vertically 2 2 (read_back okPixelEnv 0 2 2))
    (flip_vertically 2 2 (read_back_two_pass okTwoPassPixelEnv 0 2 2))
    (by norm_num) (by norm_num) rfl rfl

/-- C10: whenever render_frame_to_buffer or render_two_pass_to_buffer
returns Some(buffer), the buffer holds exactly width * height * 4 bytes
(one RGBA quadruple per pixel); width * height * 4 < 2^32 keeps the u32
size arithmetic exact (the UI clamps each axis to at most 8192). -/
theorem export_buffer_length (env : PixelEnv) (env2 : TwoPassPixelEnv)
    (t : ℚ) (w hgt : Nat) (buf buf2 : List Nat)
    (hov : w * hgt * 4 < 2 ^ 32)
    (h1 : render_frame_to_buffer env t w hgt = some buf)
    (h2 : render_two_pass_to_buffer env2 t w hgt = some buf2) :
    buf.length = w * hgt * 4 ∧ buf2.length = w * hgt * 4 := by
  have hfb : frame_buffer_len w hgt = w * hgt * 4 := Nat.mod_eq_of_lt hov
  have hrb : (read_back env t w hgt).length = w * hgt * 4 := by
    rw [length_read_back, hfb]
  have hrb2 : (read_back_two_pass env2 t w hgt).length = w * hgt * 4 := by
    rw [length_read_back_two_pass, hfb]
  constructor
  · rw [render_frame_to_buffer_eq env t w hgt buf h1,
      length_flip_vertically w hgt _ hrb, hrb]
  · rw [render_two_pass_to_buffer_eq env2 t w hgt buf2 h2,
      length_flip_vertically w hgt _ hrb2, hrb2]

/-- C10 witness: the 2×2 export buffers hold 16 bytes. -/
theorem export_buffer_length_witness :
    (flip_vertically 2 2 (read_back okPixelEnv 0 2 2)).length = 2 * 2 * 4 ∧
    (flip_vertically 2 2 (read_back_two_pass okTwoPassPixelEnv 0 2 2)).length = 2 * 2 * 4 :=
  export_buffer_length okPixelEnv okTwoPassPixelEnv 0 2 2
    (flip_vertically 2 2 (read_back okPixelEnv 0 2 2))
    (flip_vertically 2 2 (read_back_two_pass okTwoPassPixelEnv 0 2 2))
    (by norm_num) rfl rfl

end ShaderEditor
